import Mathlib

/-
Shallow embedding of the text subsystem of tessera-ui-basic-components
(src/tessera-ui-basic-components/src/pipelines/text.rs): the shared font
system accessors, TextData construction and measurement, and the
GlyphonTextRender draw pipeline.

Modelling conventions:
- f32 values are modelled as exact rationals (the source performs no float
  operation whose rounding the claims depend on; products and maxima are
  taken exactly).
- Rust numeric casts are explicit: the float-to-u32 cast truncates toward
  zero and saturates, per Rust `as` semantics for non-NaN values.
- The glyphon crate is external to this repository; a shaped buffer is
  abstracted by exactly what the measurement code reads from it: the line
  widths of its layout runs and its metrics. The outcomes of glyphon's
  fallible prepare/render calls enter the draw model as parameters.
-/

namespace Tessera

/-- Largest value of a Rust u32; the float-to-u32 cast saturates here. -/
def U32_MAX : ℕ := 4294967295

/-- Rust cast of a (non-NaN) f32 value, modelled as a rational, to u32:
truncation toward zero, saturating at 0 below and at u32 MAX above. For a
negative value, num.toNat is 0, so the result is 0, matching Rust. -/
def f32_as_u32 (q : ℚ) : ℕ := min (q.num.toNat / q.den) U32_MAX

/-- Rust cast of an f32 value to u8, same truncating and saturating
semantics; used for the color channel conversion in TextData::new. -/
def f32_as_u8 (q : ℚ) : ℕ := min (q.num.toNat / q.den) 255

/-- Model of tessera_ui::Color: RGBA with f32 channels. -/
structure Color where
  r : ℚ
  g : ℚ
  b : ℚ
  a : ℚ
deriving DecidableEq

/-- Model of glyphon::Color: RGBA with u8 channels. -/
structure GColor where
  r : ℕ
  g : ℕ
  b : ℕ
  a : ℕ
deriving DecidableEq

/-- Conversion performed in TextData::new (lines 219-224):
glyphon::Color::rgba with each channel `(c * 255.0) as u8`. -/
def glyphonColorOf (c : Color) : GColor :=
  ⟨f32_as_u8 (c.r * 255), f32_as_u8 (c.g * 255),
   f32_as_u8 (c.b * 255), f32_as_u8 (c.a * 255)⟩

/-- Model of glyphon::Metrics: font size and line height in pixels.
glyphon::Metrics::new(size, line_height) stores both verbatim, so
buffer.metrics().line_height is the line_height passed to TextData::new. -/
structure Metrics where
  font_size : ℚ
  line_height : ℚ
deriving DecidableEq

/-- Abstraction of a shaped glyphon::Buffer. The glyphon engine is an
external crate, so a shaped buffer is represented by what the measurement
code reads from it: the line_w of each entry of layout_runs(), in order,
plus metrics(). -/
structure ShapedBuffer where
  runWidths : List ℚ
  metrics : Metrics
deriving DecidableEq

/-- Modelled from the spec: TextConstraint is declared in
pipelines/text/command.rs, which is not among the given sources. Per the
spec it carries the max-width/max-height bound of the layout constraint,
each either a finite bound or unbounded, exactly what TextData::new passes
to Buffer::set_size. -/
structure TextConstraint where
  max_width : Option ℚ
  max_height : Option ℚ
deriving DecidableEq

/-- Model of TextData (lines 190-196): the shaped glyphon buffer plus the
measured size = [width, height] in u32 device pixels. -/
structure TextData where
  text_buffer : ShapedBuffer
  size : ℕ × ℕ
deriving DecidableEq

/-- Model of TextData::new (lines 207-255). Shaping is delegated to the
external glyphon engine: the layout runs the engine produces for `text`
under `constraint` (after set_wrap(Wrap::Glyph), set_size, set_text,
shape_until_scroll) enter as the runWidths parameter. The measurement that
follows is translated verbatim: height is layout_runs().count() times
metrics().line_height, run_width is the running max of run.line_w starting
from 0.0, and both are cast `as u32`. The color is converted by
glyphonColorOf but only embedded in the buffer attributes by set_text, so
it does not enter the measurement; likewise text and constraint influence
the result only through the engine-produced runWidths. -/
def TextData.new (text : String) (color : Color) (size : ℚ)
    (line_height : ℚ) (constraint : TextConstraint)
    (runWidths : List ℚ) : TextData :=
  let text_buffer : ShapedBuffer := ⟨runWidths, ⟨size, line_height⟩⟩
  let height : ℚ :=
    (text_buffer.runWidths.length : ℚ) * text_buffer.metrics.line_height
  let run_width : ℚ :=
    text_buffer.runWidths.foldl (fun acc w => max acc w) 0
  ⟨text_buffer, (f32_as_u32 run_width, f32_as_u32 height)⟩

/-- Model of TextData::from_buffer (lines 257-273): measurement only, no
shaping and no font-system access; the measurement is the same verbatim
code as the tail of TextData::new, reading the given buffer. -/
def TextData.from_buffer (text_buffer : ShapedBuffer) : TextData :=
  let height : ℚ :=
    (text_buffer.runWidths.length : ℚ) * text_buffer.metrics.line_height
  let run_width : ℚ :=
    text_buffer.runWidths.foldl (fun acc w => max acc w) 0
  ⟨text_buffer, (f32_as_u32 run_width, f32_as_u32 height)⟩

/-- Steps of TextData::new that go through the shared font system
(lines 214-239 of the source), in source order. -/
inductive NewStep
  | bufferNew
  | setWrap
  | setSize
  | setText
  | shapeAll
deriving DecidableEq

/-- Events on the shared font system during TextData::new. Each
`write_font_system()` call acquires the write lock; the returned guard is a
temporary that is dropped, releasing the lock, at the end of that
statement. -/
inductive FontEvent
  | acqWrite
  | relWrite
  | op (s : NewStep)
deriving DecidableEq

/-- Font-system access trace of TextData::new: five statements
(Buffer::new at the given metrics, set_wrap(Wrap::Glyph),
set_size(max_width, max_height), set_text(text, sans-serif attrs + color,
Shaping::Advanced), shape_until_scroll(false)), each with its own
`&mut write_font_system()` temporary. -/
def TextData.newFontEvents : List FontEvent :=
  [FontEvent.acqWrite, FontEvent.op NewStep.bufferNew, FontEvent.relWrite,
   FontEvent.acqWrite, FontEvent.op NewStep.setWrap, FontEvent.relWrite,
   FontEvent.acqWrite, FontEvent.op NewStep.setSize, FontEvent.relWrite,
   FontEvent.acqWrite, FontEvent.op NewStep.setText, FontEvent.relWrite,
   FontEvent.acqWrite, FontEvent.op NewStep.shapeAll, FontEvent.relWrite]

/-- Font-system access trace of TextData::from_buffer: its body only reads
the already-shaped buffer it is given; it never calls read_font_system or
write_font_system. -/
def TextData.fromBufferFontEvents : List FontEvent := []

/-- Number of write-lock acquisitions in a trace. -/
def acqWriteCount : List FontEvent → ℕ
  | [] => 0
  | FontEvent.acqWrite :: rest => acqWriteCount rest + 1
  | _ :: rest => acqWriteCount rest

/-- Formalisation of one exclusive write handle being acquired and held
continuously across the full trace: the trace opens with the single
acquisition, closes with its release, and acquires exactly once. -/
def heldContinuously (t : List FontEvent) : Prop :=
  acqWriteCount t = 1 ∧ t.head? = some FontEvent.acqWrite
    ∧ t.getLast? = some FontEvent.relWrite

/-- Recognises a trace that is a sequence of per-step lock scopes: acquire
the write lock, perform one step, release, repeatedly. -/
def perStepWriteLocked : List FontEvent → Bool
  | [] => true
  | FontEvent.acqWrite :: FontEvent.op _ :: FontEvent.relWrite :: rest =>
      perStepWriteLocked rest
  | _ => false

/-- Sequence of steps performed in a trace, in order. -/
def opsOf : List FontEvent → List NewStep
  | [] => []
  | FontEvent.op s :: rest => s :: opsOf rest
  | _ :: rest => opsOf rest

/-- State of the process-wide `FONT_SYSTEM : OnceLock<RwLock<FontSystem>>`
(line 24): the optionally present instance (tracked by identity), how many
times init_font_system has run, and a supply of fresh identities. -/
structure FontSystemCell where
  inst : Option ℕ
  constructions : ℕ
  nextId : ℕ
deriving DecidableEq

/-- Start-of-process state: the OnceLock is empty, nothing constructed. -/
def FontSystemCell.start : FontSystemCell := ⟨none, 0, 0⟩

/-- Model of `FONT_SYSTEM.get_or_init(init_font_system)`: constructs on
first use, otherwise returns the stored instance. OnceLock makes the
check-and-set atomic, so concurrent accessor calls are modelled by an
arbitrary interleaving into one call sequence. -/
def getOrInitFont (s : FontSystemCell) : FontSystemCell × ℕ :=
  match s.inst with
  | some i => (s, i)
  | none => (⟨some s.nextId, s.constructions + 1, s.nextId + 1⟩, s.nextId)

/-- The two accessors of the shared font system (lines 48-57). -/
inductive FsCall
  | read
  | write
deriving DecidableEq

/-- Both read_font_system and write_font_system run
`FONT_SYSTEM.get_or_init(init_font_system)` and then take their lock on
the resulting instance; the returned value is the identity of the instance
whose guard is handed out. -/
def fsCall (s : FontSystemCell) : FsCall → FontSystemCell × ℕ
  | FsCall.read => getOrInitFont s
  | FsCall.write => getOrInitFont s

/-- Run a sequence of accessor calls, collecting the instance identity each
call hands out. -/
def runFsCalls : FontSystemCell → List FsCall → FontSystemCell × List ℕ
  | s, [] => (s, [])
  | s, c :: cs =>
    let sc := fsCall s c
    let rest := runFsCalls sc.1 cs
    (rest.1, sc.2 :: rest.2)

/-- Model of wgpu::MultisampleState as captured by the pipeline at
construction (lines 103-107). -/
structure MultisampleState where
  count : ℕ
  mask : ℕ
  alpha_to_coverage_enabled : Bool
deriving DecidableEq

/-- Model of wgpu::SurfaceConfiguration, restricted to the fields the draw
method reads. -/
structure SurfaceConfiguration where
  width : ℕ
  height : ℕ
deriving DecidableEq

/-- Model of GlyphonTextRender (lines 71-83): the long-lived atlas (by
identity), the viewport's stored resolution, and the captured msaa state.
The cache and swash_cache fields carry no state observable by the claims. -/
structure GlyphonTextRender where
  atlasId : ℕ
  viewportResolution : ℕ × ℕ
  msaa : MultisampleState
deriving DecidableEq

/-- Model of an ephemeral glyphon::TextRenderer as constructed by
`TextRenderer::new(&mut self.atlas, gpu, self.msaa, None)` (line 147):
determined by the atlas it is bound to and the multisample state. -/
structure TextRenderer where
  atlasId : ℕ
  msaa : MultisampleState
deriving DecidableEq

/-- Model of tessera_ui::PxPosition: raw i32 pixel coordinates. -/
structure PxPosition where
  x : ℤ
  y : ℤ
deriving DecidableEq

/-- Model of tessera_ui::PxSize: pixel extents. -/
structure PxSize where
  width : ℤ
  height : ℤ
deriving DecidableEq

/-- Model of glyphon::TextBounds: an i32 clip rectangle. -/
structure TextBounds where
  left : ℤ
  top : ℤ
  right : ℤ
  bottom : ℤ
deriving DecidableEq

/-- Model of glyphon::TextArea: the buffer being drawn, its f32 top-left,
scale, i32 clip bounds and default color. -/
structure TextArea where
  buffer : ShapedBuffer
  left : ℚ
  top : ℚ
  scale : ℚ
  bounds : TextBounds
  default_color : GColor
deriving DecidableEq

/-- Modelled from the spec: TextCommand is declared in
pipelines/text/command.rs, which is not among the given sources. Per the
spec the command payload carries the pre-built Text Layout Artifact,
accessed as command.data in the draw method. -/
structure TextCommand where
  data : TextData
deriving DecidableEq

/-- Rust cast of a u32 value to i32: two's-complement reinterpretation. -/
def u32_as_i32 (n : ℕ) : ℤ := if n < 2 ^ 31 then (n : ℤ) else (n : ℤ) - 2 ^ 32

/-- Wrapping i32 addition (release-mode `+` on i32). -/
def i32_add (a b : ℤ) : ℤ := (a + b + 2 ^ 31) % 2 ^ 32 - 2 ^ 31

/-- Model of TextData::text_area (lines 276-292): clip bounds spanning from
the destination top-left by the measured size (with the stored u32
components cast `as i32`), the buffer positioned at the top-left, scale
1.0, default color glyphon::Color::rgb(0, 0, 0), whose alpha is 255. -/
def TextData.text_area (d : TextData) (start_pos : PxPosition) : TextArea :=
  let bounds : TextBounds :=
    ⟨start_pos.x, start_pos.y,
     i32_add start_pos.x (u32_as_i32 d.size.1),
     i32_add start_pos.y (u32_as_i32 d.size.2)⟩
  ⟨d.text_buffer, (start_pos.x : ℚ), (start_pos.y : ℚ), 1, bounds,
   ⟨0, 0, 0, 255⟩⟩

/-- Failures the glyphon engine reports from prepare (PrepareError) or
render (RenderError). -/
inductive EngineError
  | atlasFull
  | removedFromAtlas
  | screenResolutionChanged
deriving DecidableEq

/-- Observable effects of one successful draw call: the ephemeral renderers
constructed during the call, the text areas prepared, and the text areas
whose render was encoded into the pass. -/
structure DrawOutput where
  renderersCreated : List TextRenderer
  preparedAreas : List TextArea
  encodedAreas : List TextArea
deriving DecidableEq

/-- Model of GlyphonTextRender::draw (lines 132-174). The glyphon engine is
external, so the outcomes of its fallible prepare and render calls enter as
parameters; `.unwrap()` on an Err aborts the call (a panic), modelled as an
error result. Otherwise the call yields the updated pipeline state (the
viewport now holding the surface resolution) and its effects: exactly one
fresh renderer bound to the pipeline's atlas and captured msaa, and the
single text area of the command's artifact — `iter::once(...)` — prepared
and then encoded. The gpu, queue and render-pass handles are opaque and
carry no modelled state; the size argument is received but never read. -/
def GlyphonTextRender.draw (self : GlyphonTextRender)
    (config : SurfaceConfiguration) (command : TextCommand)
    (size : PxSize) (start_pos : PxPosition)
    (prepareResult : Except EngineError Unit)
    (renderResult : Except EngineError Unit) :
    Except EngineError (GlyphonTextRender × DrawOutput) :=
  let text_renderer : TextRenderer := ⟨self.atlasId, self.msaa⟩
  let self2 : GlyphonTextRender :=
    ⟨self.atlasId, (config.width, config.height), self.msaa⟩
  let text_areas : List TextArea := [command.data.text_area start_pos]
  match prepareResult with
  | Except.error e => Except.error e
  | Except.ok _ =>
    match renderResult with
    | Except.error e => Except.error e
    | Except.ok _ =>
      Except.ok (self2, ⟨[text_renderer], text_areas, text_areas⟩)

/-- Build targets distinguished by the source's cfg attributes
(lines 26 and 40): the android target and every other target. -/
inductive Platform
  | android
  | general
deriving DecidableEq

/-- Abstraction of glyphon::FontSystem configuration state: the extra font
directories loaded into its database plus the explicit generic-family
overrides; none means the family is left to the engine's built-in default
discovery. -/
structure FontSystem where
  extraFontDirs : List String
  sans_serif_family : Option String
  serif_family : Option String
  monospace_family : Option String
  cursive_family : Option String
  fantasy_family : Option String
deriving DecidableEq

/-- Model of glyphon::FontSystem::new(): built-in default font discovery,
no extra directories loaded, no explicit family overrides. -/
def FontSystem.new : FontSystem := ⟨[], none, none, none, none, none⟩

/-- Model of init_font_system (lines 26-43): the android build loads the
system font directory and pins all five generic families to platform font
names; every other build returns the engine default unchanged. The RwLock
wrapper adds no configuration state. -/
def init_font_system : Platform → FontSystem
  | Platform.android =>
    ⟨["/system/fonts"], some "Roboto", some "Noto Serif",
     some "Droid Sans Mono", some "Dancing Script", some "Dancing Script"⟩
  | Platform.general => FontSystem.new

/-- Truncation of a nonnegative rational never exceeds it. -/
lemma ratTrunc_le (q : ℚ) (hq : 0 ≤ q) :
    ((q.num.toNat / q.den : ℕ) : ℚ) ≤ q := by
  have hnum : ((q.num.toNat : ℕ) : ℚ) = (q.num : ℚ) := by
    exact_mod_cast Int.toNat_of_nonneg (Rat.num_nonneg.mpr hq)
  calc ((q.num.toNat / q.den : ℕ) : ℚ)
      ≤ ((q.num.toNat : ℕ) : ℚ) / ((q.den : ℕ) : ℚ) := Nat.cast_div_le
    _ = (q.num : ℚ) / (q.den : ℚ) := by rw [hnum]
    _ = q := Rat.num_div_den q

/-- A nonnegative rational is below its truncation plus one. -/
lemma ratTrunc_gt (q : ℚ) (hq : 0 ≤ q) :
    q < ((q.num.toNat / q.den : ℕ) : ℚ) + 1 := by
  have hdenN : 0 < q.den := q.den_pos
  have hden : (0 : ℚ) < (q.den : ℚ) := by exact_mod_cast hdenN
  have hnum : ((q.num.toNat : ℕ) : ℚ) = (q.num : ℚ) := by
    exact_mod_cast Int.toNat_of_nonneg (Rat.num_nonneg.mpr hq)
  have hqden : q * (q.den : ℚ) = (q.num : ℚ) := by
    calc q * (q.den : ℚ)
        = ((q.num : ℚ) / (q.den : ℚ)) * (q.den : ℚ) := by rw [Rat.num_div_den]
      _ = (q.num : ℚ) := div_mul_cancel₀ _ (ne_of_gt hden)
  have ha : q.num.toNat < (q.num.toNat / q.den + 1) * q.den := by
    calc q.num.toNat
        = q.den * (q.num.toNat / q.den) + q.num.toNat % q.den :=
          (Nat.div_add_mod _ _).symm
      _ < q.den * (q.num.toNat / q.den) + q.den :=
          Nat.add_lt_add_left (Nat.mod_lt _ hdenN) _
      _ = (q.num.toNat / q.den + 1) * q.den := by ring
  have key : q * (q.den : ℚ)
      < (((q.num.toNat / q.den : ℕ) : ℚ) + 1) * (q.den : ℚ) := by
    rw [hqden, ← hnum]
    calc ((q.num.toNat : ℕ) : ℚ)
        < (((q.num.toNat / q.den + 1) * q.den : ℕ) : ℚ) := by exact_mod_cast ha
      _ = (((q.num.toNat / q.den : ℕ) : ℚ) + 1) * (q.den : ℚ) := by
          push_cast
          ring
  exact lt_of_mul_lt_mul_right key (le_of_lt hden)

/-- The float-to-u32 cast of a nonnegative value never exceeds the value. -/
lemma f32_as_u32_le (q : ℚ) (hq : 0 ≤ q) : (f32_as_u32 q : ℚ) ≤ q := by
  unfold f32_as_u32
  calc ((min (q.num.toNat / q.den) U32_MAX : ℕ) : ℚ)
      ≤ ((q.num.toNat / q.den : ℕ) : ℚ) := by
        exact_mod_cast Nat.min_le_left _ _
    _ ≤ q := ratTrunc_le q hq

/-- In u32 range, the float-to-u32 cast of a nonnegative value is its
floor. -/
lemma f32_as_u32_eq_floor (q : ℚ) (hq : 0 ≤ q) (hlt : q < 4294967296) :
    (f32_as_u32 q : ℤ) = ⌊q⌋ := by
  have hmin : q.num.toNat / q.den ≤ U32_MAX := by
    by_contra hcon
    push_neg at hcon
    have h0 : 4294967296 ≤ q.num.toNat / q.den := by
      unfold U32_MAX at hcon
      omega
    have h1 : (4294967296 : ℚ) ≤ ((q.num.toNat / q.den : ℕ) : ℚ) := by
      exact_mod_cast h0
    have h2 : (4294967296 : ℚ) ≤ q := le_trans h1 (ratTrunc_le q hq)
    linarith
  have hveq : f32_as_u32 q = q.num.toNat / q.den := by
    unfold f32_as_u32
    exact min_eq_left hmin
  rw [hveq]
  symm
  rw [Int.floor_eq_iff]
  constructor
  · exact_mod_cast ratTrunc_le q hq
  · exact_mod_cast ratTrunc_gt q hq

/-- Casting zero gives zero. -/
lemma f32_as_u32_zero : f32_as_u32 0 = 0 := rfl

/-- The fold computing run_width never drops below its accumulator. -/
lemma le_foldl_max (l : List ℚ) (a : ℚ) :
    a ≤ l.foldl (fun acc w => max acc w) a := by
  induction l generalizing a with
  | nil => exact le_refl a
  | cons x xs ih => exact le_trans (le_max_left a x) (ih (max a x))

/-- The fold computing run_width stays below a bound dominating the
accumulator and every element. -/
lemma foldl_max_le (l : List ℚ) :
    ∀ a bound : ℚ, a ≤ bound → (∀ w ∈ l, w ≤ bound) →
      l.foldl (fun acc w => max acc w) a ≤ bound := by
  induction l with
  | nil =>
    intro a bound ha _
    exact ha
  | cons x xs ih =>
    intro a bound ha h
    exact ih (max a x) bound (max_le ha (h x (List.mem_cons_self x xs)))
      (fun w hw => h w (List.mem_cons_of_mem x hw))

/-- Once the OnceLock holds an instance, further accessor calls change
nothing and always hand out that instance. -/
lemma runFsCalls_stable (cs : List FsCall) (s : FontSystemCell) (i : ℕ)
    (h : s.inst = some i) :
    runFsCalls s cs = (s, List.replicate cs.length i) := by
  induction cs with
  | nil => simp [runFsCalls]
  | cons c cs ih =>
    have hc : fsCall s c = (s, i) := by
      cases c <;> simp [fsCall, getOrInitFont, h]
    simp [runFsCalls, hc, ih, List.replicate_succ]

/-- C1 (counterexample): the claim that the measured height equals the real
product lines times line-height exactly fails: the height is stored as a
u32, so for one layout run at line height 19.2 the artifact records 19,
which differs from 1 times 19.2. -/
theorem height_exact_equality_counterexample :
    ¬ (((TextData.new "hi" ⟨0, 0, 0, 1⟩ 16 (96 / 5) ⟨none, none⟩
          [10]).size.2 : ℚ)
        = (([10] : List ℚ).length : ℚ) * (96 / 5)) := by
  have hfl : ⌊(96 / 5 : ℚ)⌋ = (19 : ℤ) := by
    rw [Int.floor_eq_iff]
    norm_num
  have h1 : (f32_as_u32 (96 / 5) : ℤ) = 19 := by
    rw [f32_as_u32_eq_floor (96 / 5) (by norm_num) (by norm_num)]
    exact hfl
  have h2 : f32_as_u32 (96 / 5) = 19 := by exact_mod_cast h1
  intro hcon
  norm_num [TextData.new, h2] at hcon

/-- C1 (amended): for every text, color, font size, line height and
constraint, the measured height of the artifact equals the float-to-u32
truncation of (number of laid-out lines) times the line-height metric,
that is, its floor, whenever the product is nonnegative and within u32
range. -/
theorem measured_height_eq_floor_of_product
    (text : String) (color : Color) (size line_height : ℚ)
    (constraint : TextConstraint) (runWidths : List ℚ)
    (h0 : 0 ≤ line_height)
    (hrange : (runWidths.length : ℚ) * line_height < 4294967296) :
    ((TextData.new text color size line_height constraint
        runWidths).size.2 : ℤ)
      = ⌊(runWidths.length : ℚ) * line_height⌋ := by
  have hq : 0 ≤ (runWidths.length : ℚ) * line_height :=
    mul_nonneg (Nat.cast_nonneg _) h0
  simpa [TextData.new] using
    f32_as_u32_eq_floor ((runWidths.length : ℚ) * line_height) hq hrange

/-- C1 (witness): concrete instance of the amended height law. -/
theorem measured_height_eq_floor_of_product_witness :
    ((TextData.new "hello" ⟨0, 0, 0, 1⟩ 16 (96 / 5) ⟨none, none⟩
        [40]).size.2 : ℤ)
      = ⌊(([40] : List ℚ).length : ℚ) * (96 / 5)⌋ :=
  measured_height_eq_floor_of_product "hello" ⟨0, 0, 0, 1⟩ 16 (96 / 5)
    ⟨none, none⟩ [40] (by norm_num) (by norm_num)

/-- C2: under a finite, nonnegative max-width, if the external shaping
engine wraps every produced layout run within the bound — its contract
under Wrap::Glyph per the spec — then the measured width, the truncated
maximum of the run widths, never exceeds the max-width. -/
theorem measured_width_le_finite_max_width
    (text : String) (color : Color) (size line_height : ℚ)
    (max_width : ℚ) (max_height : Option ℚ) (runWidths : List ℚ)
    (hmw : 0 ≤ max_width)
    (hwrap : ∀ w ∈ runWidths, w ≤ max_width) :
    ((TextData.new text color size line_height
        ⟨some max_width, max_height⟩ runWidths).size.1 : ℚ) ≤ max_width := by
  have hnn : (0 : ℚ) ≤ runWidths.foldl (fun acc w => max acc w) 0 :=
    le_foldl_max runWidths 0
  have hub : runWidths.foldl (fun acc w => max acc w) 0 ≤ max_width :=
    foldl_max_le runWidths 0 max_width hmw hwrap
  have key : ((f32_as_u32 (runWidths.foldl (fun acc w => max acc w) 0)) : ℚ)
      ≤ max_width :=
    le_trans (f32_as_u32_le _ hnn) hub
  simpa [TextData.new] using key

/-- C2 (witness): concrete instance of the width bound. -/
theorem measured_width_le_finite_max_width_witness :
    ((TextData.new "a" ⟨0, 0, 0, 1⟩ 16 (96 / 5) ⟨some 2, none⟩
        [1]).size.1 : ℚ) ≤ 2 :=
  measured_width_le_finite_max_width "a" ⟨0, 0, 0, 1⟩ 16 (96 / 5) 2 none [1]
    (by norm_num)
    (by
      intro w hw
      have hw1 : w = 1 := List.mem_singleton.mp hw
      rw [hw1]
      norm_num)

/-- C3 (counterexample): for zero-length text the claim that the height
equals one line's metric exactly fails: at line height 1.5 the u32 height
is 1, not 1.5 (the width is indeed 0, so the conjunction fails). -/
theorem empty_text_height_exact_counterexample :
    ¬ ((((TextData.new "" ⟨0, 0, 0, 1⟩ 16 (3 / 2) ⟨none, none⟩
            [0]).size.2 : ℚ) = 3 / 2)
       ∧ (TextData.new "" ⟨0, 0, 0, 1⟩ 16 (3 / 2) ⟨none, none⟩
            [0]).size.1 = 0) := by
  have hfl : ⌊(3 / 2 : ℚ)⌋ = (1 : ℤ) := by
    rw [Int.floor_eq_iff]
    norm_num
  have h1 : (f32_as_u32 (3 / 2) : ℤ) = 1 := by
    rw [f32_as_u32_eq_floor (3 / 2) (by norm_num) (by norm_num)]
    exact hfl
  have h2 : f32_as_u32 (3 / 2) = 1 := by exact_mod_cast h1
  intro hcon
  have hA := hcon.1
  norm_num [TextData.new, h2] at hA

/-- C3 (amended): zero-length text — which the engine lays out as a single
empty run of width 0 — yields a valid artifact of width 0 whose height is
the float-to-u32 truncation (floor) of one line's metric, for any color,
font size and constraint, provided the line height is nonnegative and in
u32 range. -/
theorem empty_text_measurement
    (color : Color) (size line_height : ℚ) (constraint : TextConstraint)
    (h0 : 0 ≤ line_height) (hrange : line_height < 4294967296) :
    (TextData.new "" color size line_height constraint [0]).size.1 = 0
    ∧ ((TextData.new "" color size line_height constraint
          [0]).size.2 : ℤ) = ⌊line_height⌋ := by
  constructor
  · simp [TextData.new, f32_as_u32_zero]
  · simpa [TextData.new] using f32_as_u32_eq_floor line_height h0 hrange

/-- C3 (witness): concrete instance of the empty-text measurement. -/
theorem empty_text_measurement_witness :
    (TextData.new "" ⟨0, 0, 0, 1⟩ 16 (96 / 5) ⟨some 100, some 100⟩
        [0]).size.1 = 0
    ∧ ((TextData.new "" ⟨0, 0, 0, 1⟩ 16 (96 / 5) ⟨some 100, some 100⟩
          [0]).size.2 : ℤ) = ⌊(96 / 5 : ℚ)⌋ :=
  empty_text_measurement ⟨0, 0, 0, 1⟩ 16 (96 / 5) ⟨some 100, some 100⟩
    (by norm_num) (by norm_num)

/-- C4: starting from the empty OnceLock, any nonempty sequence of read and
write accessor calls constructs the font system exactly once, and every
call in the sequence hands out that same single instance. -/
theorem font_system_constructed_once (calls : List FsCall)
    (hne : calls ≠ []) :
    (runFsCalls FontSystemCell.start calls).1.constructions = 1
    ∧ (runFsCalls FontSystemCell.start calls).2
        = List.replicate calls.length 0 := by
  match calls with
  | [] => exact absurd rfl hne
  | c :: cs =>
    have h1 : fsCall FontSystemCell.start c = (⟨some 0, 1, 1⟩, 0) := by
      cases c <;> rfl
    have h2 := runFsCalls_stable cs ⟨some 0, 1, 1⟩ 0 rfl
    constructor
    · simp [runFsCalls, h1, h2]
    · simp [runFsCalls, h1, h2, List.replicate_succ]

/-- C4 (witness): a concrete read-write-read sequence constructs once and
always hands out instance 0. -/
theorem font_system_constructed_once_witness :
    (runFsCalls FontSystemCell.start
        [FsCall.read, FsCall.write, FsCall.read]).1.constructions = 1
    ∧ (runFsCalls FontSystemCell.start
        [FsCall.read, FsCall.write, FsCall.read]).2
        = List.replicate 3 0 :=
  font_system_constructed_once [FsCall.read, FsCall.write, FsCall.read]
    (by decide)

/-- C5 (counterexample): the font-system trace of TextData::new does not
hold one continuous exclusive write handle across the whole construction
sequence: it acquires the write lock five separate times. -/
theorem write_lock_not_held_continuously :
    ¬ heldContinuously TextData.newFontEvents := by
  unfold heldContinuously
  decide

/-- C5 (amended): during TextData::new the exclusive write handle is
acquired and released separately for each of the five steps — buffer
allocation at the given metrics, glyph-granularity wrap, size constraint,
text content with default family and color, and full shaping — in source
order, each step inside its own write scope, for five acquisitions in
total rather than one continuous hold. -/
theorem write_lock_per_step :
    perStepWriteLocked TextData.newFontEvents = true
    ∧ opsOf TextData.newFontEvents
        = [NewStep.bufferNew, NewStep.setWrap, NewStep.setSize,
           NewStep.setText, NewStep.shapeAll]
    ∧ acqWriteCount TextData.newFontEvents = 5 := by
  decide

/-- C6: a successful draw call creates exactly one brand-new ephemeral
renderer, bound to the pipeline's long-lived atlas and captured msaa
configuration, and prepares then encodes exactly one text area: the
artifact's shaped buffer at the destination top-left, clipped by the
rectangle spanned from that position by the artifact's measured size. -/
theorem draw_prepares_single_area_with_fresh_renderer
    (self : GlyphonTextRender) (config : SurfaceConfiguration)
    (command : TextCommand) (size : PxSize) (start_pos : PxPosition) :
    GlyphonTextRender.draw self config command size start_pos
        (Except.ok ()) (Except.ok ())
      = Except.ok
          (⟨self.atlasId, (config.width, config.height), self.msaa⟩,
           ⟨[⟨self.atlasId, self.msaa⟩],
            [command.data.text_area start_pos],
            [command.data.text_area start_pos]⟩)
    ∧ (command.data.text_area start_pos).buffer = command.data.text_buffer
    ∧ (command.data.text_area start_pos).left = (start_pos.x : ℚ)
    ∧ (command.data.text_area start_pos).top = (start_pos.y : ℚ)
    ∧ (command.data.text_area start_pos).bounds
        = ⟨start_pos.x, start_pos.y,
           i32_add start_pos.x (u32_as_i32 command.data.size.1),
           i32_add start_pos.y (u32_as_i32 command.data.size.2)⟩ :=
  ⟨rfl, rfl, rfl, rfl, rfl⟩

/-- C7: an engine failure during preparation, or during render encoding
after a successful preparation, makes the whole draw call end in that error
— the failure is propagated, never swallowed into a silent success that
drops the text. -/
theorem draw_engine_failure_propagates
    (self : GlyphonTextRender) (config : SurfaceConfiguration)
    (command : TextCommand) (size : PxSize) (start_pos : PxPosition)
    (prepareResult renderResult : Except EngineError Unit)
    (e : EngineError)
    (h : prepareResult = Except.error e
         ∨ (prepareResult = Except.ok ()
            ∧ renderResult = Except.error e)) :
    GlyphonTextRender.draw self config command size start_pos
        prepareResult renderResult
      = Except.error e := by
  rcases h with h | ⟨h1, h2⟩
  · simp [GlyphonTextRender.draw, h]
  · simp [GlyphonTextRender.draw, h1, h2]

/-- C7 (witness): a concrete prepare failure aborts the draw call with the
same error. -/
theorem draw_engine_failure_propagates_witness :
    GlyphonTextRender.draw ⟨0, (0, 0), ⟨1, 0, false⟩⟩ ⟨640, 480⟩
        ⟨TextData.from_buffer ⟨[], ⟨16, 18⟩⟩⟩ ⟨10, 10⟩ ⟨0, 0⟩
        (Except.error EngineError.atlasFull) (Except.ok ())
      = Except.error EngineError.atlasFull :=
  draw_engine_failure_propagates _ _ _ _ _ _ _ _ (Or.inl rfl)

/-- C8: the font-system initialization is fixed by the build target: the
android (embedded/mobile) build loads the system font directory and sets
explicit sans-serif, serif, monospace, cursive and fantasy family
fallbacks to platform font names, while every other build uses the
engine's built-in default discovery with no explicit overrides. -/
theorem init_font_system_platform_policy :
    init_font_system Platform.android
      = ⟨["/system/fonts"], some "Roboto", some "Noto Serif",
         some "Droid Sans Mono", some "Dancing Script",
         some "Dancing Script"⟩
    ∧ init_font_system Platform.general = FontSystem.new
    ∧ (init_font_system Platform.general).extraFontDirs = []
    ∧ (init_font_system Platform.general).sans_serif_family = none
    ∧ (init_font_system Platform.general).serif_family = none
    ∧ (init_font_system Platform.general).monospace_family = none
    ∧ (init_font_system Platform.general).cursive_family = none
    ∧ (init_font_system Platform.general).fantasy_family = none :=
  ⟨rfl, rfl, rfl, rfl, rfl, rfl, rfl, rfl⟩

/-- C9: building an artifact from a pre-shaped buffer performs only the
measurement step — its font-system access trace is empty, so nothing is
re-shaped and the shared font resource is untouched — and yields exactly
the artifact that the measurement step of TextData::new produces on an
identically shaped buffer, in particular the same measured width and
height. -/
theorem from_buffer_measurement_only
    (text : String) (color : Color) (size line_height : ℚ)
    (constraint : TextConstraint) (runWidths : List ℚ) :
    TextData.new text color size line_height constraint runWidths
      = TextData.from_buffer ⟨runWidths, ⟨size, line_height⟩⟩
    ∧ (TextData.new text color size line_height constraint
        runWidths).size
      = (TextData.from_buffer ⟨runWidths, ⟨size, line_height⟩⟩).size
    ∧ TextData.fromBufferFontEvents = [] :=
  ⟨rfl, rfl, rfl⟩

/-- C10: the result of a draw call does not depend on the destination size
argument: two invocations agreeing on everything else but differing in the
passed size produce identical results, because the prepared bounds come
only from the artifact's own measured size and the top-left position. -/
theorem draw_independent_of_size_argument
    (self : GlyphonTextRender) (config : SurfaceConfiguration)
    (command : TextCommand) (size1 size2 : PxSize)
    (start_pos : PxPosition)
    (prepareResult renderResult : Except EngineError Unit) :
    GlyphonTextRender.draw self config command size1 start_pos
        prepareResult renderResult
      = GlyphonTextRender.draw self config command size2 start_pos
        prepareResult renderResult :=
  rfl

end Tessera
